import Mathlib

/-!
Verification development for the SM-TRIBE/infer repository: a Telegram dating
bot consisting of a database layer (src/db.py, asyncpg over PostgreSQL) and a
conversation-handler layer (src/main.py, python-telegram-bot).

The database is embedded as an explicit state (`DB`): the three tables created
by `init_db` become lists of records, and each db.py function becomes a pure
state transformer.  SQL errors (undefined column, unique-constraint violation,
parameter type mismatch) are modelled with `Except StoreError`.  The
conversation handlers of main.py become step functions on the per-user
session dictionary (`context.user_data`) together with the conversation-state
constant they return.
-/

namespace Infer

/-- A row of the `users` table (src/db.py, init_db).  `coins` has storage
default 100; `referral_code` is UNIQUE; `referred_by` is nullable.  The
`created_at` timestamp is irrelevant to every property below and is omitted. -/
structure UserRec where
  user_id : Int
  name : String
  coins : Int
  is_premium : Bool
  is_banned : Bool
  referral_code : String
  referred_by : Option String
deriving Repr, DecidableEq

/-- A row of the `profiles` table (src/db.py, init_db): one-to-one with users,
all payload columns nullable (a fresh profile row has every field NULL). -/
structure ProfileRec where
  user_id : Int
  gender : Option String
  age : Option Int
  bio : Option String
  photo_id : Option String
  location : Option String
deriving Repr, DecidableEq

/-- The database state: the three tables of init_db.  A like is a directed
edge (liker_id, liked_id); the PRIMARY KEY (liker_id, liked_id) would make it
unique per ordered pair. -/
structure DB where
  users : List UserRec
  profiles : List ProfileRec
  likes : List (Int × Int)
deriving Repr, DecidableEq

/-- Errors surfaced by the record store (asyncpg): unique-constraint
violations and other SQL-level failures (undefined column, type mismatch). -/
inductive StoreError
  | uniqueViolation
  | sqlError
deriving Repr, DecidableEq

/-- db.user_exists: SELECT EXISTS(SELECT 1 FROM users WHERE user_id = $1). -/
def user_exists (db : DB) (uid : Int) : Bool :=
  db.users.any fun u => u.user_id = uid

/-- db.is_banned: SELECT is_banned FROM users WHERE user_id = $1, with a
missing row read as not banned. -/
def is_banned (db : DB) (uid : Int) : Bool :=
  match db.users.find? (fun u => u.user_id = uid) with
  | some u => u.is_banned
  | none => false

/-- db.add_coins: UPDATE users SET coins = coins + $1 WHERE user_id = $2.
A single-statement update; rows not matching user_id are untouched, and a
missing user makes it a zero-row no-op (no error). -/
def add_coins (db : DB) (uid : Int) (amount : Int) : DB :=
  { db with
    users := db.users.map fun u =>
      if u.user_id = uid then { u with coins := u.coins + amount } else u }

/-- A parameter value passed to an UPDATE statement ($1): an integer, a
string, or SQL NULL. -/
inductive Value
  | vint (i : Int)
  | vstr (s : String)
  | vnull
deriving Repr, DecidableEq

/-- The row-level effect of `UPDATE profiles SET {field} = $1` for a given
field name and parameter value: `some` an update function when the field
names a column of `profiles` and the value fits the column type, `none` when
the statement itself is a SQL error (undefined column or type mismatch).
db.update_profile interpolates `field` directly into the statement with no
validation, so every actual column — including `user_id` — is reachable. -/
def setColumn (field : String) (v : Value) : Option (ProfileRec → ProfileRec) :=
  match field, v with
  | "user_id", .vint i => some fun p => { p with user_id := i }
  | "gender", .vstr s => some fun p => { p with gender := some s }
  | "gender", .vnull => some fun p => { p with gender := none }
  | "age", .vint i => some fun p => { p with age := some i }
  | "age", .vnull => some fun p => { p with age := none }
  | "bio", .vstr s => some fun p => { p with bio := some s }
  | "bio", .vnull => some fun p => { p with bio := none }
  | "photo_id", .vstr s => some fun p => { p with photo_id := some s }
  | "photo_id", .vnull => some fun p => { p with photo_id := none }
  | "location", .vstr s => some fun p => { p with location := some s }
  | "location", .vnull => some fun p => { p with location := none }
  | _, _ => none

/-- db.update_profile: executes
`UPDATE profiles SET {field} = $1 WHERE user_id = $2` with the field name
f-string-interpolated, unvalidated.  The update applies to every row whose
user_id matches (zero rows is still success); a field that is not a typed
column of `profiles` raises at the store. -/
def update_profile (db : DB) (uid : Int) (field : String) (v : Value) :
    Except StoreError DB :=
  match setColumn field v with
  | some f =>
      .ok { db with
            profiles := db.profiles.map fun p =>
              if p.user_id = uid then f p else p }
  | none => .error .sqlError

/-- The WHERE clause of db.search_users as a predicate on a `profiles` row
joined to its `users` row: p.gender = $1 AND p.age BETWEEN $2 AND $3 AND
p.user_id != $4 AND u.is_banned = FALSE.  A NULL gender or age compares to
nothing, so such rows are excluded, exactly as in SQL. -/
def search_pred (db : DB) (searcher : Int) (gender : String)
    (minAge maxAge : Int) (p : ProfileRec) : Bool :=
  (p.gender = some gender)
    && (match p.age with
        | some a => decide (minAge ≤ a ∧ a ≤ maxAge)
        | none => false)
    && (p.user_id ≠ searcher)
    && (db.users.any fun u => u.user_id = p.user_id && u.is_banned = false)

/-- The multiset of ids db.search_users selects before ORDER BY RANDOM() and
LIMIT 20: profiles joined to users, filtered by the WHERE clause, projected
to p.user_id.  The executed query returns `order.take 20` for some
permutation `order` of this list (randomization is per-call, unseeded). -/
def search_users_filtered (db : DB) (searcher : Int) (gender : String)
    (minAge maxAge : Int) : List Int :=
  (db.profiles.filter (search_pred db searcher gender minAge maxAge)).map
    fun p => p.user_id

/-- The fresh profiles row inserted by db.create_user: every payload column
NULL. -/
def emptyProfile (uid : Int) : ProfileRec :=
  { user_id := uid, gender := none, age := none, bio := none,
    photo_id := none, location := none }

/-- The users row inserted by db.create_user: coins takes the storage default
100, premium and banned default FALSE, referral_code is the freshly generated
8-character token, referred_by the code passed on /start (may be NULL). -/
def newUserRow (uid : Int) (name newCode : String) (ref : Option String) :
    UserRec :=
  { user_id := uid, name := name, coins := 100, is_premium := false,
    is_banned := false, referral_code := newCode, referred_by := ref }

/-- Outcome of one call to db.create_user at commit granularity. -/
structure CreateRun where
  /-- The database state after the call returns. -/
  committed : DB
  /-- States a concurrent reader could observe while the call is in flight
  (after each commit that happens before the call's own transaction commits),
  in order. -/
  observed : List DB
  /-- Whether the new user row is durably present when the call returns. -/
  user_created : Bool
  /-- Whether the call raises an exception to its caller. -/
  raised : Bool
deriving Repr, DecidableEq

/-- db.create_user at commit granularity.  The user and profile INSERTs run
inside `conn.transaction()` on the main connection, so they become visible
only when that transaction commits; the referrer SELECT runs on the same
connection and therefore sees the uncommitted insert.  `add_coins`, however,
opens its OWN connection, so the referral credit auto-commits immediately —
it is observable by concurrent readers before the user row exists — and if
the credit UPDATE fails (`creditFails`), the exception propagates through the
transaction block, rolling the user INSERT back, and the call raises.
Python truthiness appears twice: an empty referral string skips the referrer
lookup (`if referral_code:`), and the fetched `referrer_id` is also tested by
truthiness (`if referrer_id:`), so both a NULL lookup result and a referrer
whose user id is 0 skip the credit — 0 is falsy.  A referral_code collision
on INSERT violates the UNIQUE constraint and raises, rolling back. -/
def create_user_run (db : DB) (uid : Int) (name newCode : String)
    (ref : Option String) (creditFails : Bool) : CreateRun :=
  if user_exists db uid then
    { committed := db, observed := [], user_created := false, raised := false }
  else if db.users.any (fun u => u.referral_code = newCode) then
    { committed := db, observed := [], user_created := false, raised := true }
  else
    let inserted : DB :=
      { db with
        users := db.users ++ [newUserRow uid name newCode ref],
        profiles := db.profiles ++ [emptyProfile uid] }
    match ref with
    | none =>
        { committed := inserted, observed := [], user_created := true,
          raised := false }
    | some rc =>
        if rc = "" then
          { committed := inserted, observed := [], user_created := true,
            raised := false }
        else
          match inserted.users.find? (fun u => u.referral_code = rc) with
          | none =>
              { committed := inserted, observed := [], user_created := true,
                raised := false }
          | some referrer =>
              if referrer.user_id = 0 then
                { committed := inserted, observed := [], user_created := true,
                  raised := false }
              else if creditFails then
                { committed := db, observed := [], user_created := false,
                  raised := true }
              else
                let mid := add_coins db referrer.user_id 50
                { committed :=
                    { mid with
                      users := mid.users ++ [newUserRow uid name newCode ref],
                      profiles := mid.profiles ++ [emptyProfile uid] },
                  observed := [mid], user_created := true, raised := false }

/-- db.create_user as its caller sees it on the non-failing path: the
committed state of `create_user_run`, with a raised store exception as
`.error`. -/
def create_user (db : DB) (uid : Int) (name newCode : String)
    (ref : Option String) : Except StoreError DB :=
  let r := create_user_run db uid name newCode ref false
  if r.raised then .error .uniqueViolation else .ok r.committed

/-- db.get_referral_code: SELECT referral_code FROM users WHERE user_id = $1. -/
def get_referral_code (db : DB) (uid : Int) : Option String :=
  (db.users.find? (fun u => u.user_id = uid)).map fun u => u.referral_code

/-!
The conversation layer (src/main.py).  Each handler returns one of the
conversation-state constants of `range(16)` or `ConversationHandler.END`;
`ENDED` stands for the latter.  `context.user_data` is a per-user dictionary
whose keys relevant to search/browse are modelled by `Session` (a key absent
from the dictionary is `none`). -/

/-- The conversation-state constants of main.py, plus ConversationHandler.END. -/
inductive ConvState
  | GENDER | AGE | Bio | PHOTO | LOCATION | MENU
  | SEARCH_GENDER | SEARCH_AGE_MIN | SEARCH_AGE_MAX | VIEW_PROFILE
  | ADMIN_MENU | ADMIN_GRANT_COINS | ADMIN_GRANT_PREMIUM
  | ADMIN_USER_LIST | ADMIN_BAN_USER | ADMIN_UNBAN_USER
  | ENDED
deriving Repr, DecidableEq

/-- The search/browse keys of `context.user_data`.  `none` models an absent
key; the cursor `search_index` is zero-based and only ever set to 0 or
incremented. -/
structure Session where
  search_gender : Option String
  search_age_min : Option Int
  search_results : Option (List Int)
  search_index : Option Nat
deriving Repr, DecidableEq

/-- The user-visible replies the search/browse handlers produce. -/
inductive BotReply
  | invalidAge
  | noUsersFound
  | showProfile (uid : Int)
  | noMoreProfiles
deriving Repr, DecidableEq

/-- main.age: parses the message text with int(); a parse failure is `none`.
An integer outside [18,99] raises ValueError into the same except-branch as a
parse failure: re-prompt and stay in AGE, touching nothing.  A valid age is
persisted via db.update_profile(user_id, "age", value) and the conversation
advances to Bio.  A store exception would propagate (it is not a ValueError),
hence the Except. -/
def age_handler (db : DB) (uid : Int) (input : Option Int) :
    Except StoreError (DB × ConvState) :=
  match input with
  | some a =>
      if 18 ≤ a ∧ a ≤ 99 then
        (update_profile db uid "age" (.vint a)).map fun db2 => (db2, .Bio)
      else .ok (db, .AGE)
  | none => .ok (db, .AGE)

/-- main.cancel: replies "Operation cancelled." and returns
ConversationHandler.END.  It does not touch `context.user_data`. -/
def cancel_handler (sess : Session) : Session × ConvState :=
  (sess, .ENDED)

/-- main.view_profile: reads the candidate list and cursor from
`context.user_data` with defaults [] and 0; past the end (or an empty list)
it replies "No more profiles to show." and returns END, otherwise it renders
the candidate at the cursor and returns VIEW_PROFILE. -/
def view_profile_step (sess : Session) : ConvState × BotReply :=
  let results := sess.search_results.getD []
  let index := sess.search_index.getD 0
  if results.isEmpty || results.length ≤ index then (.ENDED, .noMoreProfiles)
  else (.VIEW_PROFILE, .showProfile (results.getD index 0))

/-- main.search_age_max: parses the max age (parse failure = `none`),
requires min_age ≤ max_age ≤ 99 else re-prompts in SEARCH_AGE_MAX; then runs
the search (its result list is the `results` argument).  An empty result
replies "No users found..." and ENDs without storing anything; otherwise it
stores the list and cursor 0 in `context.user_data`, renders the first
candidate via view_profile and returns VIEW_PROFILE. -/
def search_age_max_step (sess : Session) (minAge : Int) (input : Option Int)
    (results : List Int) : Session × ConvState × BotReply :=
  match input with
  | some maxAge =>
      if minAge ≤ maxAge ∧ maxAge ≤ 99 then
        if results.isEmpty then (sess, .ENDED, .noUsersFound)
        else
          let sess2 : Session :=
            { sess with search_results := some results, search_index := some 0 }
          (sess2, .VIEW_PROFILE, (view_profile_step sess2).2)
      else (sess, .SEARCH_AGE_MAX, .invalidAge)
  | none => (sess, .SEARCH_AGE_MAX, .invalidAge)

/-- `context.user_data["search_index"] += 1`: a missing key raises KeyError
(`none`). -/
def bump_index (sess : Session) : Option Session :=
  sess.search_index.map fun i => { sess with search_index := some (i + 1) }

/-- The callback data profile_callback dispatches on. -/
inductive CallbackData
  | like (target : Int)
  | next
deriving Repr, DecidableEq

/-- main.profile_callback.  The "like_" branch sends the liked user an
out-of-band notification and edits the message — it inserts NO row into the
likes table — then increments the cursor and re-renders via view_profile; the
"next_profile" branch does the same without the notification.  Both branches
return VIEW_PROFILE unconditionally (ignoring view_profile's END).  The
reply recorded here is the one view_profile produces after the increment. -/
def profile_callback_step (db : DB) (sess : Session) (d : CallbackData) :
    Option (DB × Session × ConvState × BotReply) :=
  match d with
  | .like _ =>
      (bump_index sess).map fun sess2 =>
        (db, sess2, .VIEW_PROFILE, (view_profile_step sess2).2)
  | .next =>
      (bump_index sess).map fun sess2 =>
        (db, sess2, .VIEW_PROFILE, (view_profile_step sess2).2)

/-- The session state while browsing `results` with the cursor at `k`:
what search_age_max stores (k = 0) and what each like/next advance reaches. -/
def browse_sess (sess : Session) (results : List Int) (k : Nat) : Session :=
  { sess with search_results := some results, search_index := some k }

/-- Outcome of main.admin_grant_coins after input parsing. -/
inductive GrantOutcome
  | granted
  | userNotFound
deriving Repr, DecidableEq

/-- main.admin_grant_coins, after the "UserID Amount" line has parsed (a
parse failure replies "Invalid format" and changes nothing): a nonexistent
target replies "User not found." and performs no mutation; otherwise
db.add_coins adds the amount.  Either way the handler returns ADMIN_MENU. -/
def admin_grant_coins (db : DB) (target : Int) (amount : Int) :
    DB × GrantOutcome :=
  if user_exists db target then (add_coins db target amount, .granted)
  else (db, .userNotFound)

/-!
Concrete fixtures used by witnesses and counterexamples. -/

/-- Fixture: an existing user with referral code "b2c3d4e5" and the default
balance. -/
def userB : UserRec :=
  { user_id := 2, name := "Bea", coins := 100, is_premium := false,
    is_banned := false, referral_code := "b2c3d4e5", referred_by := none }

/-- Fixture: userB's completed profile. -/
def profileB : ProfileRec :=
  { user_id := 2, gender := some "Female", age := some 25, bio := some "hi",
    photo_id := none, location := some "Oslo" }

/-- Fixture: a one-user database with no likes. -/
def db0 : DB := { users := [userB], profiles := [profileB], likes := [] }

/-- Fixture: user 1's session while browsing the single candidate 2. -/
def sessC1 : Session :=
  { search_gender := some "Female", search_age_min := some 20,
    search_results := some [2], search_index := some 0 }

/-- Fixture: a browse session with collected criteria, a candidate list and a
mid-list cursor. -/
def sessC9 : Session :=
  { search_gender := some "Male", search_age_min := some 21,
    search_results := some [42, 43], search_index := some 1 }

/-- Fixture: a fresh, empty per-user session. -/
def sessEmpty : Session :=
  { search_gender := none, search_age_min := none, search_results := none,
    search_index := none }

/-- Fixture: an existing user whose user id is 0 — a falsy id under Python
truthiness — holding referral code "z0z0z0z0" at the default balance. -/
def user0 : UserRec :=
  { user_id := 0, name := "Zed", coins := 100, is_premium := false,
    is_banned := false, referral_code := "z0z0z0z0", referred_by := none }

/-- Fixture: a one-user database whose sole user has id 0. -/
def db_zero : DB := { users := [user0], profiles := [], likes := [] }



/-- Decidable equality for store results, so concrete runs can be settled by
`decide`. -/
instance {ε α : Type} [DecidableEq ε] [DecidableEq α] :
    DecidableEq (Except ε α) := fun x y =>
  match x, y with
  | .ok a, .ok b =>
      if h : a = b then isTrue (congrArg Except.ok h)
      else isFalse fun hc => h (Except.ok.inj hc)
  | .error e, .error f =>
      if h : e = f then isTrue (congrArg Except.error h)
      else isFalse fun hc => h (Except.error.inj hc)
  | .ok _, .error _ => isFalse fun hc => Except.noConfusion hc
  | .error _, .ok _ => isFalse fun hc => Except.noConfusion hc

/-- C1: the "like" handler is claimed to record a Like edge (liker = acting
user, liked = displayed candidate), with a repeat like leaving exactly one
edge.  Evaluating main.profile_callback at a concrete browse shows it never
inserts into the likes table: after user 1 presses Like on the displayed
candidate 2 — once, and again — the likes table is still empty, not a single
edge (1, 2). -/
theorem like_records_no_edge_C1 :
    profile_callback_step db0 sessC1 (.like 2) =
      some (db0, browse_sess sessC1 [2] 1, .VIEW_PROFILE, .noMoreProfiles)
  ∧ (profile_callback_step db0 (browse_sess sessC1 [2] 1) (.like 2)) =
      some (db0, browse_sess sessC1 [2] 2, .VIEW_PROFILE, .noMoreProfiles)
  ∧ db0.likes = []
  ∧ (1, 2) ∉ db0.likes := by decide

/-- C3: db.create_user is claimed to be a single transactional unit whose
referral credit is non-fatal.  At a concrete input: on the successful path
the credit (add_coins runs on its own auto-committing connection) is
observable by concurrent readers while the new user row (inside the still
open transaction) is not yet visible; and when the credit fails, the
exception rolls the whole transaction back, so user creation fails instead
of succeeding without the credit. -/
theorem create_user_not_transactional_C3 :
    (create_user_run db0 1 "Al" "a1b2c3d4" (some "b2c3d4e5") false).observed =
      [add_coins db0 2 50]
  ∧ (add_coins db0 2 50).users = [{ userB with coins := 150 }]
  ∧ user_exists (add_coins db0 2 50) 1 = false
  ∧ (create_user_run db0 1 "Al" "a1b2c3d4" (some "b2c3d4e5") true).user_created
      = false
  ∧ (create_user_run db0 1 "Al" "a1b2c3d4" (some "b2c3d4e5") true).raised = true
  ∧ (create_user_run db0 1 "Al" "a1b2c3d4" (some "b2c3d4e5") true).committed
      = db0 := by decide

/-- C9 counterexample: main.cancel is claimed to discard all in-progress
session data, including the stored candidate list and cursor.  At a concrete
mid-browse session, cancel does end the conversation, but the candidate list
and cursor are still present afterwards. -/
theorem cancel_keeps_session_C9 :
    (cancel_handler sessC9).2 = .ENDED
  ∧ (cancel_handler sessC9).1.search_results = some [42, 43]
  ∧ (cancel_handler sessC9).1.search_index = some 1
  ∧ (cancel_handler sessC9).1.search_results ≠ none := by decide

/-- C9 amended: from every conversation state the explicit cancel action
returns the user to Idle (ends the conversation), but it leaves the per-user
session data untouched — the stored candidate list, cursor and collected
search criteria are retained, to be overwritten only by the next successful
search. -/
theorem cancel_to_idle_retains_session_C9 (sess : Session) :
    cancel_handler sess = (sess, .ENDED) := rfl

/-- C7: in AwaitingAge, a non-numeric input or an integer outside [18,99]
changes nothing (same database, state stays AGE), while an integer in
[18,99] is persisted exactly into the profile row of the acting user and the
state advances to Bio, leaving other rows and the users table unchanged. -/
theorem age_validation_C7 (db : DB) (uid : Int) :
    (∀ a : Int, ¬ (18 ≤ a ∧ a ≤ 99) →
       age_handler db uid (some a) = .ok (db, .AGE))
  ∧ age_handler db uid none = .ok (db, .AGE)
  ∧ ∀ a : Int, 18 ≤ a → a ≤ 99 →
      ∃ db2, age_handler db uid (some a) = .ok (db2, .Bio)
        ∧ (∀ p ∈ db2.profiles, p.user_id = uid → p.age = some a)
        ∧ (∀ p ∈ db2.profiles, p.user_id ≠ uid → p ∈ db.profiles)
        ∧ db2.users = db.users := by
  refine ⟨fun a h => ?_, rfl, fun a h1 h2 => ?_⟩
  · show (if 18 ≤ a ∧ a ≤ 99 then
        Except.map (fun db2 => (db2, ConvState.Bio))
          (update_profile db uid "age" (Value.vint a))
      else Except.ok (db, ConvState.AGE)) = Except.ok (db, ConvState.AGE)
    rw [if_neg h]
  · refine ⟨{ db with profiles := db.profiles.map fun p =>
        if p.user_id = uid then { p with age := some a } else p }, ?_, ?_, ?_, rfl⟩
    · show (if 18 ≤ a ∧ a ≤ 99 then
          Except.map (fun db2 => (db2, ConvState.Bio))
            (update_profile db uid "age" (Value.vint a))
        else Except.ok (db, ConvState.AGE)) = _
      rw [if_pos ⟨h1, h2⟩]
      rfl
    · intro p hp hpu
      obtain ⟨q, hq, rfl⟩ := List.mem_map.mp hp
      by_cases hqu : q.user_id = uid
      · simp [hqu]
      · simp only [if_neg hqu] at hpu ⊢
        exact absurd hpu hqu
    · intro p hp hpu
      obtain ⟨q, hq, rfl⟩ := List.mem_map.mp hp
      by_cases hqu : q.user_id = uid
      · simp only [if_pos hqu] at hpu
        exact absurd hqu (by simpa using hpu)
      · simpa [if_neg hqu] using hq

/-- C7 witnessed at a concrete input: 17 and a non-numeric message re-prompt
without touching the database; 30 is persisted and the state advances. -/
theorem age_validation_C7_witness :
    age_handler db0 2 (some 17) = .ok (db0, .AGE)
  ∧ age_handler db0 2 none = .ok (db0, .AGE)
  ∧ ∃ db2, age_handler db0 2 (some 30) = .ok (db2, .Bio)
      ∧ (∀ p ∈ db2.profiles, p.user_id = 2 → p.age = some 30)
      ∧ (∀ p ∈ db2.profiles, p.user_id ≠ 2 → p ∈ db0.profiles)
      ∧ db2.users = db0.users :=
  ⟨(age_validation_C7 db0 2).1 17 (by decide), (age_validation_C7 db0 2).2.1,
    (age_validation_C7 db0 2).2.2 30 (by decide) (by decide)⟩

/-- C8: the admin coin grant adds exactly the given amount to an existing
target's balance (all other rows untouched), and for a nonexistent target it
reports the user as not found and changes nothing. -/
theorem admin_grant_coins_C8 (db : DB) (target amount : Int) :
    (user_exists db target = true →
       (admin_grant_coins db target amount).2 = .granted
     ∧ ∀ u ∈ db.users,
         (u.user_id = target →
            { u with coins := u.coins + amount } ∈
              (admin_grant_coins db target amount).1.users)
       ∧ (u.user_id ≠ target →
            u ∈ (admin_grant_coins db target amount).1.users))
  ∧ (user_exists db target = false →
       admin_grant_coins db target amount = (db, .userNotFound)) := by
  constructor
  · intro h
    refine ⟨by simp [admin_grant_coins, h], fun u hu => ⟨fun hut => ?_, fun hut => ?_⟩⟩
    · simp only [admin_grant_coins, h, if_true, add_coins]
      exact List.mem_map.mpr ⟨u, hu, by rw [if_pos hut]⟩
    · simp only [admin_grant_coins, h, if_true, add_coins]
      exact List.mem_map.mpr ⟨u, hu, by rw [if_neg hut]⟩
  · intro h
    simp [admin_grant_coins, h]

/-- C8 witnessed at a concrete input: granting 100 to existing user 2 yields
balance 100 + 100, granting to absent user 3 reports not-found and leaves the
database unchanged. -/
theorem admin_grant_coins_C8_witness :
    (user_exists db0 2 = true
     ∧ (admin_grant_coins db0 2 100).2 = .granted
     ∧ { userB with coins := userB.coins + 100 } ∈
         (admin_grant_coins db0 2 100).1.users)
  ∧ (user_exists db0 3 = false
     ∧ admin_grant_coins db0 3 100 = (db0, .userNotFound)) :=
  ⟨⟨by decide, ((admin_grant_coins_C8 db0 2 100).1 (by decide)).1,
     (((admin_grant_coins_C8 db0 2 100).1 (by decide)).2 userB (by decide)).1 (by decide)⟩,
   ⟨by decide, (admin_grant_coins_C8 db0 3 100).2 (by decide)⟩⟩

/-- C6: with valid age bounds, an empty candidate list makes search_age_max
end the conversation at once with the no-users outcome, storing nothing; a
nonempty list of length N enters browsing at cursor 0 rendering the first
candidate, and from every cursor k < N a like/next advance succeeds, moving
the cursor to k+1 and rendering candidate k+1 when k+1 < N and producing the
no-more-profiles outcome exactly at the N-th advance (k+1 = N). -/
theorem browse_termination_C6 (db : DB) (sess : Session) (minAge maxAge : Int)
    (results : List Int) (hmin : minAge ≤ maxAge) (hmax : maxAge ≤ 99) :
    search_age_max_step sess minAge (some maxAge) [] =
      (sess, .ENDED, .noUsersFound)
  ∧ (results ≠ [] →
      search_age_max_step sess minAge (some maxAge) results =
        (browse_sess sess results 0, .VIEW_PROFILE,
          .showProfile (results.getD 0 0))
      ∧ ∀ d : CallbackData, ∀ k : Nat, k < results.length →
          profile_callback_step db (browse_sess sess results k) d =
            some (db, browse_sess sess results (k + 1), .VIEW_PROFILE,
              if k + 1 < results.length then
                .showProfile (results.getD (k + 1) 0)
              else .noMoreProfiles)) := by
  have hred : ∀ rs : List Int,
      search_age_max_step sess minAge (some maxAge) rs =
        if rs.isEmpty then (sess, ConvState.ENDED, BotReply.noUsersFound)
        else (browse_sess sess rs 0, ConvState.VIEW_PROFILE,
              (view_profile_step (browse_sess sess rs 0)).2) := by
    intro rs
    show (if minAge ≤ maxAge ∧ maxAge ≤ 99 then _ else _) = _
    rw [if_pos ⟨hmin, hmax⟩]
    rfl
  constructor
  · rw [hred]
    rfl
  · intro hne
    have hempty : results.isEmpty = false := by
      cases results with
      | nil => exact absurd rfl hne
      | cons a t => rfl
    have hview : ∀ j : Nat,
        (view_profile_step (browse_sess sess results j)).2 =
          if j < results.length then .showProfile (results.getD j 0)
          else .noMoreProfiles := by
      intro j
      by_cases hj : j < results.length
      · rw [if_pos hj]
        simp [view_profile_step, browse_sess, hempty, Nat.not_le.mpr hj]
      · rw [if_neg hj]
        simp [view_profile_step, browse_sess, hempty, Nat.le_of_not_lt hj]
    constructor
    · rw [hred, if_neg (by simp [hempty])]
      have h0 : (0 : Nat) < results.length := by
        cases results with
        | nil => exact absurd rfl hne
        | cons a t => simp
      rw [hview 0, if_pos h0]
    · intro d k _
      have hbump : bump_index (browse_sess sess results k) =
          some (browse_sess sess results (k + 1)) := rfl
      cases d with
      | like target =>
          have hstep : profile_callback_step db (browse_sess sess results k)
              (CallbackData.like target) =
            some (db, browse_sess sess results (k + 1), ConvState.VIEW_PROFILE,
              (view_profile_step (browse_sess sess results (k + 1))).2) := rfl
          rw [hstep, hview (k + 1)]
      | next =>
          have hstep : profile_callback_step db (browse_sess sess results k)
              CallbackData.next =
            some (db, browse_sess sess results (k + 1), ConvState.VIEW_PROFILE,
              (view_profile_step (browse_sess sess results (k + 1))).2) := rfl
          rw [hstep, hview (k + 1)]

/-- C6 witnessed at a concrete input: an empty result ends at once with the
no-users outcome; with the single candidate 7 the first (and only) advance
produces the no-more-profiles outcome. -/
theorem browse_termination_C6_witness :
    search_age_max_step sessEmpty 18 (some 30) [] =
      (sessEmpty, .ENDED, .noUsersFound)
  ∧ profile_callback_step db0 (browse_sess sessEmpty [7] 0) .next =
      some (db0, browse_sess sessEmpty [7] 1, .VIEW_PROFILE, .noMoreProfiles) := by
  have h := browse_termination_C6 db0 sessEmpty 18 30 [7] (by decide) (by decide)
  refine ⟨h.1, ?_⟩
  have h2 := (h.2 (by decide)).2 .next 0 (by decide)
  rw [if_neg (by decide)] at h2
  exact h2

/-- C5: whatever permutation ORDER BY RANDOM() produces of the filtered rows,
the LIMIT-20 result of db.search_users contains at most 20 ids, and every
returned id belongs to a profile with exactly the requested gender and an age
inside the inclusive range, is never the searcher, and is never banned (the
primary-key hypothesis says user ids are unique, as the users table enforces). -/
theorem search_candidates_C5 (db : DB) (searcher : Int) (gender : String)
    (minAge maxAge : Int) (order : List Int)
    (horder : order.Perm (search_users_filtered db searcher gender minAge maxAge))
    (hpk : (db.users.map fun u => u.user_id).Nodup) :
    (order.take 20).length ≤ 20
  ∧ ∀ x ∈ order.take 20,
      x ≠ searcher
    ∧ (∃ p ∈ db.profiles, p.user_id = x ∧ p.gender = some gender
         ∧ ∃ a, p.age = some a ∧ minAge ≤ a ∧ a ≤ maxAge)
    ∧ ∀ u ∈ db.users, u.user_id = x → u.is_banned = false := by
  constructor
  · rw [List.length_take]
    exact Nat.min_le_left _ _
  · intro x hx
    have hxo : x ∈ order := List.mem_of_mem_take hx
    have hxf : x ∈ search_users_filtered db searcher gender minAge maxAge :=
      horder.mem_iff.mp hxo
    obtain ⟨p, hp, rfl⟩ := List.mem_map.mp hxf
    have hpm := List.mem_filter.mp hp
    have hpred := hpm.2
    simp only [search_pred, Bool.and_eq_true, decide_eq_true_eq,
      List.any_eq_true] at hpred
    obtain ⟨⟨⟨hgender, hage⟩, hself⟩, u0, hu0, hu0p⟩ := hpred
    refine ⟨hself, ?_, ?_⟩
    · refine ⟨p, hpm.1, rfl, hgender, ?_⟩
      cases hpa : p.age with
      | none => rw [hpa] at hage; exact absurd hage (by simp)
      | some a =>
          rw [hpa] at hage
          simp only [decide_eq_true_eq] at hage
          exact ⟨a, rfl, hage.1, hage.2⟩
    · intro u hu huid
      have : u = u0 := by
        apply List.inj_on_of_nodup_map hpk hu hu0
        rw [huid, hu0p.1]
      rw [this, hu0p.2]

/-- C5 witnessed at a concrete input: searcher 1 searching Female in [20,30]
over db0 may only receive candidate 2, who matches gender and age, is not the
searcher, and is not banned. -/
theorem search_candidates_C5_witness :
    (([2] : List Int).take 20).length ≤ 20
  ∧ ∀ x ∈ ([2] : List Int).take 20,
      x ≠ 1
    ∧ (∃ p ∈ db0.profiles, p.user_id = x ∧ p.gender = some "Female"
         ∧ ∃ a, p.age = some a ∧ 20 ≤ a ∧ a ≤ 30)
    ∧ ∀ u ∈ db0.users, u.user_id = x → u.is_banned = false :=
  search_candidates_C5 db0 1 "Female" 20 30 [2] (by decide) (by decide)

/-- Helper: a pointwise ∀-form of a failing `List.any` over referral codes. -/
theorem any_code_eq_false (db : DB) (c : String)
    (h : ∀ u ∈ db.users, u.referral_code ≠ c) :
    (db.users.any fun u => u.referral_code = c) = false := by
  rw [List.any_eq_false]
  intro u hu
  simp [h u hu]

/-- Helper: a user id reported absent by db.user_exists occurs on no row. -/
theorem no_uid_of_not_exists (db : DB) (uid : Int)
    (h : user_exists db uid = false) : ∀ u ∈ db.users, u.user_id ≠ uid := by
  intro u hu
  rw [user_exists, List.any_eq_false] at h
  simpa using h u hu

/-- Helper: with the UNIQUE constraint on referral_code (codes Nodup), the
referrer lookup finds exactly the holder of the code. -/
theorem find_code_eq (db : DB) (rc : String) (B : UserRec)
    (hBmem : B ∈ db.users) (hBrc : B.referral_code = rc)
    (hcodes : (db.users.map fun u => u.referral_code).Nodup) :
    (db.users.find? fun u => u.referral_code = rc) = some B := by
  cases hf : db.users.find? fun u => u.referral_code = rc with
  | none =>
      have := List.find?_eq_none.mp hf B hBmem
      simp [hBrc] at this
  | some u0 =>
      have hu0 : u0 ∈ db.users := List.mem_of_find?_eq_some hf
      have hp : u0.referral_code = rc := by
        have := List.find?_some hf
        simpa using this
      have : u0 = B :=
        List.inj_on_of_nodup_map hcodes hu0 hBmem (by rw [hp, hBrc])
      rw [this]

/-- Helper: the referrer lookup runs after the new row is inserted, so it
scans db.users ++ [new row]; an existing holder of the code is still the one
found (the fresh code differs from the searched one). -/
theorem find_code_append (db : DB) (uid : Int) (name newCode rc : String)
    (B : UserRec) (hBmem : B ∈ db.users) (hBrc : B.referral_code = rc)
    (hcodes : (db.users.map fun u => u.referral_code).Nodup) :
    ((db.users ++ [newUserRow uid name newCode (some rc)]).find?
        fun u => u.referral_code = rc) = some B := by
  rw [List.find?_append, find_code_eq db rc B hBmem hBrc hcodes]
  rfl

/-- Helper: when nobody (old rows or the fresh one) holds the code, the
referrer lookup finds nothing. -/
theorem find_code_none (db : DB) (uid : Int) (name newCode rc : String)
    (hnone : ∀ u ∈ db.users, u.referral_code ≠ rc) (hnewrc : newCode ≠ rc) :
    ((db.users ++ [newUserRow uid name newCode (some rc)]).find?
        fun u => u.referral_code = rc) = none := by
  rw [List.find?_append]
  have h1 : (db.users.find? fun u => u.referral_code = rc) = none :=
    List.find?_eq_none.mpr fun u hu => by simp [hnone u hu]
  have h2 : (([newUserRow uid name newCode (some rc)] : List UserRec).find?
      fun u => u.referral_code = rc) = none :=
    List.find?_eq_none.mpr fun u hu => by
      simp only [List.mem_singleton] at hu
      subst hu
      simp [newUserRow, hnewrc]
  rw [h1, h2]
  rfl

/-- Helper: create_user on a fresh user with no referring code appends the
new user row (default balance) and profile row and credits nobody. -/
theorem create_user_ref_none (db : DB) (uid : Int) (name newCode : String)
    (huid : user_exists db uid = false)
    (hcode : (db.users.any fun u => u.referral_code = newCode) = false) :
    create_user db uid name newCode none =
      .ok { users := db.users ++ [newUserRow uid name newCode none],
            profiles := db.profiles ++ [emptyProfile uid],
            likes := db.likes } := by
  unfold create_user create_user_run
  rw [huid, hcode]
  rfl

/-- Helper: create_user with a referring code held by nobody creates the user
and credits nobody (the silent no-op branch). -/
theorem create_user_code_unmatched (db : DB) (uid : Int)
    (name newCode rc : String)
    (huid : user_exists db uid = false)
    (hcode : (db.users.any fun u => u.referral_code = newCode) = false)
    (hrc : rc ≠ "")
    (hfind : ((db.users ++ [newUserRow uid name newCode (some rc)]).find?
        fun u => u.referral_code = rc) = none) :
    create_user db uid name newCode (some rc) =
      .ok { users := db.users ++ [newUserRow uid name newCode (some rc)],
            profiles := db.profiles ++ [emptyProfile uid],
            likes := db.likes } := by
  simp [create_user, create_user_run, huid, hcode, hrc, hfind]

/-- Helper: create_user with a referring code resolving to row B creates the
user and routes 50 coins to B.user_id via add_coins — provided B's id is
nonzero, since `if referrer_id:` skips the credit for a falsy id. -/
theorem create_user_code_matched (db : DB) (uid : Int)
    (name newCode rc : String) (B : UserRec)
    (huid : user_exists db uid = false)
    (hcode : (db.users.any fun u => u.referral_code = newCode) = false)
    (hrc : rc ≠ "") (hB0 : B.user_id ≠ 0)
    (hfind : ((db.users ++ [newUserRow uid name newCode (some rc)]).find?
        fun u => u.referral_code = rc) = some B) :
    create_user db uid name newCode (some rc) =
      .ok { users :=
              (add_coins db B.user_id 50).users ++
                [newUserRow uid name newCode (some rc)],
            profiles := db.profiles ++ [emptyProfile uid],
            likes := db.likes } := by
  simp [create_user, create_user_run, huid, hcode, hrc, hB0, hfind]
  exact ⟨rfl, rfl⟩

/-- C2 counterexample: the claim says every fresh user created with an
existing user B's code increases B's balance by exactly 50.  With B = user0,
whose user id is 0, the fetched referrer_id is falsy, so `if referrer_id:`
skips the credit: user 5 is created carrying the code, yet user0's row is
unchanged at 100 coins and no +50 row exists anywhere in the result. -/
theorem referral_zero_referrer_uncredited_C2 :
    user0 ∈ db_zero.users
  ∧ user0.referral_code = "z0z0z0z0"
  ∧ user0.coins = 100
  ∧ create_user db_zero 5 "Eve" "e5e5e5e5" (some "z0z0z0z0") =
      .ok { users := [user0, newUserRow 5 "Eve" "e5e5e5e5" (some "z0z0z0z0")],
            profiles := [emptyProfile 5],
            likes := [] }
  ∧ { user0 with coins := user0.coins + 50 } ∉
      ([user0, newUserRow 5 "Eve" "e5e5e5e5" (some "z0z0z0z0")] :
        List UserRec) := by decide

/-- C2 amended: creating a fresh user A whose referring code is held by an
existing user B with a NONZERO user id credits B with exactly 50 coins
exactly once (every other existing row is untouched, and A is inserted);
creating A with a code held by nobody still creates A and changes no existing
row at all.  The nonzero-id proviso is forced by the source's `if
referrer_id:` truthiness test, which silently skips the credit for a referrer
whose id is 0 (see the C2 counterexample).  The Nodup hypotheses are the
UNIQUE constraint on referral_code and the PRIMARY KEY on user_id; the fresh
generated code is distinct from every stored code, as its uniqueness
constraint demands. -/
theorem referral_bonus_C2 (db : DB) (uid : Int) (name newCode : String)
    (huid : user_exists db uid = false)
    (hfresh : ∀ u ∈ db.users, u.referral_code ≠ newCode) :
    (∀ rc B, B ∈ db.users → B.referral_code = rc → B.user_id ≠ 0 → rc ≠ "" →
       (db.users.map fun u => u.referral_code).Nodup →
       (db.users.map fun u => u.user_id).Nodup →
       ∃ db2, create_user db uid name newCode (some rc) = .ok db2
         ∧ { B with coins := B.coins + 50 } ∈ db2.users
         ∧ (∀ u ∈ db.users, u ≠ B → u ∈ db2.users)
         ∧ newUserRow uid name newCode (some rc) ∈ db2.users)
  ∧ ∀ rc, rc ≠ "" → newCode ≠ rc → (∀ u ∈ db.users, u.referral_code ≠ rc) →
      create_user db uid name newCode (some rc) =
        .ok { users := db.users ++ [newUserRow uid name newCode (some rc)],
              profiles := db.profiles ++ [emptyProfile uid],
              likes := db.likes } := by
  have hcode := any_code_eq_false db newCode hfresh
  refine ⟨fun rc B hBmem hBrc hB0 hrc hcodes hids => ?_,
          fun rc hrc hnewrc hnone => ?_⟩
  · have hnewrc : newCode ≠ rc := fun h => hfresh B hBmem (hBrc.trans h.symm)
    have hfind := find_code_append db uid name newCode rc B hBmem hBrc hcodes
    refine ⟨_, create_user_code_matched db uid name newCode rc B huid hcode
      hrc hB0 hfind, ?_, ?_, ?_⟩
    · exact List.mem_append_left _
        (List.mem_map.mpr ⟨B, hBmem, by rw [if_pos rfl]⟩)
    · intro u hu hune
      have hneid : u.user_id ≠ B.user_id := fun he =>
        hune (List.inj_on_of_nodup_map hids hu hBmem he)
      exact List.mem_append_left _
        (List.mem_map.mpr ⟨u, hu, by rw [if_neg hneid]⟩)
    · exact List.mem_append_right _ (by simp)
  · exact create_user_code_unmatched db uid name newCode rc huid hcode hrc
      (find_code_none db uid name newCode rc hnone hnewrc)

/-- C2 witnessed at a concrete input: creating user 1 with userB's code
"b2c3d4e5" credits userB from 100 to 150 once; creating user 1 with the stale
code "zzzz" creates the user and touches no existing row. -/
theorem referral_bonus_C2_witness :
    (∃ db2, create_user db0 1 "Al" "a1b2c3d4" (some "b2c3d4e5") = .ok db2
       ∧ { userB with coins := userB.coins + 50 } ∈ db2.users
       ∧ (∀ u ∈ db0.users, u ≠ userB → u ∈ db2.users)
       ∧ newUserRow 1 "Al" "a1b2c3d4" (some "b2c3d4e5") ∈ db2.users)
  ∧ create_user db0 1 "Al" "a1b2c3d4" (some "zzzz") =
      .ok { users := db0.users ++ [newUserRow 1 "Al" "a1b2c3d4" (some "zzzz")],
            profiles := db0.profiles ++ [emptyProfile 1],
            likes := db0.likes } := by
  have h := referral_bonus_C2 db0 1 "Al" "a1b2c3d4" (by decide) (by decide)
  exact ⟨h.1 "b2c3d4e5" userB (by decide) (by decide) (by decide) (by decide)
           (by decide) (by decide),
         h.2 "zzzz" (by decide) (by decide) (by decide)⟩

/-- C10: every newly created user row carries the storage default balance of
exactly 100 coins — the spec never states this initial balance — and whenever
the referral path actually credits (the code resolves to a referrer B that
passes the source's `if referrer_id:` truthiness test, i.e. B.user_id ≠ 0),
the referrer's balance becomes its prior value plus 50 (never a value
computed from zero) while the new user still starts at 100. -/
theorem default_balance_C10 (db : DB) (uid : Int) (name newCode : String)
    (huid : user_exists db uid = false)
    (hfresh : ∀ u ∈ db.users, u.referral_code ≠ newCode) :
    (∃ db2, create_user db uid name newCode none = .ok db2
       ∧ newUserRow uid name newCode none ∈ db2.users
       ∧ (newUserRow uid name newCode none).coins = 100
       ∧ ∀ u ∈ db2.users, u.user_id = uid → u.coins = 100)
  ∧ ∀ rc B, B ∈ db.users → B.referral_code = rc → B.user_id ≠ 0 → rc ≠ "" →
      (db.users.map fun u => u.referral_code).Nodup →
      (db.users.map fun u => u.user_id).Nodup →
      ∃ db2, create_user db uid name newCode (some rc) = .ok db2
        ∧ { B with coins := B.coins + 50 } ∈ db2.users
        ∧ ∀ u ∈ db2.users, u.user_id = uid → u.coins = 100 := by
  have hcode := any_code_eq_false db newCode hfresh
  have hnid := no_uid_of_not_exists db uid huid
  constructor
  · refine ⟨_, create_user_ref_none db uid name newCode huid hcode, ?_, rfl, ?_⟩
    · exact List.mem_append_right _ (by simp)
    · intro u hu huu
      rcases List.mem_append.mp hu with hl | hr
      · exact absurd huu (hnid u hl)
      · have : u = newUserRow uid name newCode none := by simpa using hr
        rw [this]
        rfl
  · intro rc B hBmem hBrc hB0 hrc hcodes _
    have hfind := find_code_append db uid name newCode rc B hBmem hBrc hcodes
    refine ⟨_, create_user_code_matched db uid name newCode rc B huid hcode
      hrc hB0 hfind, ?_, ?_⟩
    · exact List.mem_append_left _
        (List.mem_map.mpr ⟨B, hBmem, by rw [if_pos rfl]⟩)
    · intro u hu huu
      rcases List.mem_append.mp hu with hl | hr
      · obtain ⟨w, hw, rfl⟩ := List.mem_map.mp hl
        have hwid : (if w.user_id = B.user_id
            then { w with coins := w.coins + 50 } else w).user_id = w.user_id := by
          by_cases hb : w.user_id = B.user_id
          · rw [if_pos hb]
          · rw [if_neg hb]
        rw [hwid] at huu
        exact absurd huu (hnid w hw)
      · have : u = newUserRow uid name newCode (some rc) := by simpa using hr
        rw [this]
        rfl

/-- C10 witnessed at a concrete input: creating user 1 without a code yields
a row with balance exactly 100; creating user 1 with userB's code makes
userB's balance its prior 100 plus 50 while user 1 still starts at 100. -/
theorem default_balance_C10_witness :
    (∃ db2, create_user db0 1 "Al" "a1b2c3d4" none = .ok db2
       ∧ newUserRow 1 "Al" "a1b2c3d4" none ∈ db2.users
       ∧ (newUserRow 1 "Al" "a1b2c3d4" none).coins = 100
       ∧ ∀ u ∈ db2.users, u.user_id = 1 → u.coins = 100)
  ∧ ∃ db2, create_user db0 1 "Al" "a1b2c3d4" (some "b2c3d4e5") = .ok db2
      ∧ { userB with coins := userB.coins + 50 } ∈ db2.users
      ∧ ∀ u ∈ db2.users, u.user_id = 1 → u.coins = 100 := by
  have h := default_balance_C10 db0 1 "Al" "a1b2c3d4" (by decide) (by decide)
  exact ⟨h.1, h.2 "b2c3d4e5" userB (by decide) (by decide) (by decide)
    (by decide) (by decide) (by decide)⟩

end Infer
